import Mathlib

/-!
# Verification of the Aadhaar-card field-extraction engine

Shallow embedding of `src/fastapi_app.py` (the core extraction pipeline:
`validate_aadhaar_number`, `extract_aadhaar_info`, and the orchestration in
`extract_aadhaar_data`).  Text is modelled as `List Char`; the Python regular
expressions used by the source are transcribed as explicit backtracking
matchers that follow Python `re` semantics (leftmost match, greedy/lazy
quantifier order, lookahead, `IGNORECASE`, `MULTILINE`).  Character classes
`\d`, `\s`, `\w` are modelled over their ASCII range, with the Devanagari
block (U+0900–U+097F) counted as word characters, which covers every string
the source's patterns and vocabularies mention.
-/

namespace Aadhaar

/-- ASCII decimal digit, the model of the regex class `\d`. -/
def isDigitA (c : Char) : Bool := '0' ≤ c && c ≤ '9'

/-- ASCII whitespace, the model of the regex class `\s`. -/
def isSpaceA (c : Char) : Bool :=
  c = ' ' || c = '\t' || c = '\n' || c = '\r' || c = '\x0b' || c = '\x0c'

/-- ASCII letter, the model of the regex class `[A-Za-z]`. -/
def isAlphaA (c : Char) : Bool :=
  ('A' ≤ c && c ≤ 'Z') || ('a' ≤ c && c ≤ 'z')

/-- A combining mark or punctuation code point of the Devanagari block:
these are *not* word characters for Python's `\w` (vowel signs such as ि/ा/ु,
the virama, candrabindu/anusvara/visarga, the danda `।`, etc.). -/
def isDevanagariMark (c : Char) : Bool :=
  (0x900 ≤ c.toNat && c.toNat ≤ 0x903) ||
  (0x93A ≤ c.toNat && c.toNat ≤ 0x93C) ||
  (0x93E ≤ c.toNat && c.toNat ≤ 0x94F) ||
  (0x951 ≤ c.toNat && c.toNat ≤ 0x957) ||
  (0x962 ≤ c.toNat && c.toNat ≤ 0x965) ||
  c.toNat = 0x970

/-- Word character for `\b` boundaries: ASCII alphanumeric, underscore, or a
letter/digit code point of the Devanagari block (its combining marks and
punctuation are not word characters, matching Python's `\w`). -/
def isWordChar (c : Char) : Bool :=
  isAlphaA c || isDigitA c || c = '_' ||
    (0x900 ≤ c.toNat && c.toNat ≤ 0x97F && !isDevanagariMark c)

/-- ASCII lower-casing, the model of `re.IGNORECASE` folding for the
characters appearing in the source's patterns. -/
def lcA (c : Char) : Char :=
  if 'A' ≤ c && c ≤ 'Z' then Char.ofNat (c.toNat + 32) else c

/-- Case-insensitive literal prefix match.  Returns the prefix as it occurs
in the text together with the remaining text. -/
def ciPrefixKeep : List Char → List Char → Option (List Char × List Char)
  | [], s => some ([], s)
  | _ :: _, [] => none
  | p :: ps, c :: cs =>
    if lcA p = lcA c then
      (ciPrefixKeep ps cs).map (fun pr => (c :: pr.1, pr.2))
    else
      none

/-- Consume exactly `n` digits (`\d{n}`), returning them and the rest. -/
def takeDigits : Nat → List Char → Option (List Char × List Char)
  | 0, s => some ([], s)
  | _ + 1, [] => none
  | n + 1, c :: cs =>
    if isDigitA c then
      (takeDigits n cs).map (fun pr => (c :: pr.1, pr.2))
    else
      none

/-- Word boundary `\b` *after* a word character: the rest of the text is
empty or starts with a non-word character. -/
def endB : List Char → Bool
  | [] => true
  | c :: _ => !isWordChar c

/-- General word boundary `\b` between a character of the given wordness and
the rest of the text: exactly one side is a word character (the end of the
text counts as non-word). -/
def endBAfter (lastIsWord : Bool) : List Char → Bool
  | [] => lastIsWord
  | c :: _ => lastIsWord != isWordChar c

/-! ## The ID-number ("aadhaar") matcher

Pattern from the source: `\b[2-9]{1}[0-9]{3}\s?[0-9]{4}\s?[0-9]{4}\b`,
searched with `re.search` (leftmost match).  The matched text `group(0)` is
kept, spaces included; the `\s?` quantifiers are greedy (try the whitespace
character first, then backtrack to the empty match). -/

/-- Final `[0-9]{4}\b` of the ID pattern. -/
def aadhaarLast4 (s : List Char) : Option (List Char) :=
  match takeDigits 4 s with
  | some (ds, r) => if endB r then some ds else none
  | none => none

/-- `[0-9]{4}\s?[0-9]{4}\b`, with the greedy `\s?`. -/
def aadhaarSecondCore (s : List Char) : Option (List Char) :=
  match takeDigits 4 s with
  | some (ds, r) =>
    let withWs : Option (List Char) :=
      match r with
      | c :: r2 =>
        if isSpaceA c then (aadhaarLast4 r2).map (fun m => ds ++ c :: m) else none
      | [] => none
    match withWs with
    | some m => some m
    | none => (aadhaarLast4 r).map (fun m => ds ++ m)
  | none => none

/-- `\s?[0-9]{4}\s?[0-9]{4}\b`, with the first greedy `\s?`. -/
def aadhaarSecond (s : List Char) : Option (List Char) :=
  let withWs : Option (List Char) :=
    match s with
    | c :: r =>
      if isSpaceA c then (aadhaarSecondCore r).map (fun m => c :: m) else none
    | [] => none
  match withWs with
  | some m => some m
  | none => aadhaarSecondCore s

/-- Attempt the full ID pattern at the current position (the `\b` before the
position is checked by the scanner). -/
def matchAadhaarAt : List Char → Option (List Char)
  | [] => none
  | c :: r =>
    if '2' ≤ c && c ≤ '9' then
      match takeDigits 3 r with
      | some (ds, r2) => (aadhaarSecond r2).map (fun m => c :: (ds ++ m))
      | none => none
    else
      none

/-- Leftmost search for the ID pattern.  `prevWord` records whether the
character before the current position is a word character (for `\b`). -/
def aadhaarScan (prevWord : Bool) : List Char → Option (List Char)
  | [] => none
  | c :: rest =>
    match (if prevWord then none else matchAadhaarAt (c :: rest)) with
    | some m => some m
    | none => aadhaarScan (isWordChar c) rest

/-! ## The DOB matcher

Pattern from the source: two digits, a separator, two digits, a separator,
four digits, surrounded by word boundaries, where each separator is
*independently* a slash or a hyphen (the character class "slash hyphen"). -/

/-- A DOB separator: a slash or a hyphen. -/
def isSep (c : Char) : Bool := c = '/' || c = '-'

/-- Attempt the DOB pattern at the current position. -/
def matchDobAt (s : List Char) : Option (List Char) :=
  match takeDigits 2 s with
  | some (d1, r1) =>
    match r1 with
    | c1 :: r2 =>
      if isSep c1 then
        match takeDigits 2 r2 with
        | some (d2, r3) =>
          match r3 with
          | c2 :: r4 =>
            if isSep c2 then
              match takeDigits 4 r4 with
              | some (d3, r5) =>
                if endB r5 then some (d1 ++ c1 :: (d2 ++ c2 :: d3)) else none
              | none => none
            else none
          | [] => none
        | none => none
      else none
    | [] => none
  | none => none

/-- Leftmost search for the DOB pattern, with the leading `\b`. -/
def dobScan (prevWord : Bool) : List Char → Option (List Char)
  | [] => none
  | c :: rest =>
    match (if prevWord then none else matchDobAt (c :: rest)) with
    | some m => some m
    | none => dobScan (isWordChar c) rest

/-! ## The gender matcher

Pattern from the source:
`\b(Male|Female|Transgender|पुरुष|महिला|किन्नर)\b` with `re.IGNORECASE`;
the captured token is kept in its original spelling from the text. -/

/-- The gender alternation, in the source's order. -/
def genderToks : List (List Char) :=
  ["Male", "Female", "Transgender", "पुरुष", "महिला", "किन्नर"].map String.data

/-- Try each alternative in order at the current position; each must be
followed by a word boundary.  The matched token can end in a non-word
character (a Devanagari vowel sign, as in `महिला`), so the trailing `\b` is
the general transition check. -/
def firstTok : List (List Char) → List Char → Option (List Char)
  | [], _ => none
  | t :: ts, s =>
    match ciPrefixKeep t s with
    | some (orig, rest) =>
      if endBAfter (isWordChar (orig.getLastD ' ')) rest then some orig
      else firstTok ts s
    | none => firstTok ts s

/-- Leftmost search for the gender pattern, with the leading `\b`. -/
def genderScan (prevWord : Bool) : List Char → Option (List Char)
  | [] => none
  | c :: rest =>
    match (if prevWord then none else firstTok genderToks (c :: rest)) with
    | some m => some m
    | none => genderScan (isWordChar c) rest

/-- The gender transform from the source's pattern table:
`lambda x: "Male" if x in ["Male", "पुरुष"] else "Female" if x in
["Female", "महिला"] else "Transgender"` — a case-sensitive comparison. -/
def genderTransform (x : String) : String :=
  if x = "Male" || x = "पुरुष" then "Male"
  else if x = "Female" || x = "महिला" then "Female"
  else "Transgender"

/-! ## The name matcher

Pattern from the source (with `re.IGNORECASE` and `re.MULTILINE`): the label
`Name` or `नाम`, then `\s*`, an optional `:` or `।`, then `\s*`, then the
lazy capture group `([A-Za-z\s]+?)` stopped by the lookahead
`(?=\s*(?:DOB|Year|Birth|Father|Mother|पिता|माता|जन्म|Male|Female|पुरुष|महिला)|\n|$)`.
Backtracking order follows the Python engine: both `\s*` are greedy (longest
first), the optional colon consumes first, the group is lazy (shortest
first).  Under `MULTILINE`, `$` in the lookahead matches at the end of the
text and before any newline, so the lookahead succeeds exactly when a
boundary keyword follows optional whitespace, or the next character is a
newline, or the text ends. -/

/-- The boundary keywords of the name pattern's lookahead, in source order. -/
def nameKws : List (List Char) :=
  ["DOB", "Year", "Birth", "Father", "Mother", "पिता", "माता", "जन्म",
   "Male", "Female", "पुरुष", "महिला"].map String.data

/-- Length of the leading whitespace run (the maximal `\s*` match). -/
def wsLen (s : List Char) : Nat := (s.takeWhile isSpaceA).length

/-- Does some boundary keyword match (case-insensitively) after skipping
whitespace?  Since no keyword starts with whitespace, the existential over
the lazy-irrelevant lookahead `\s*` reduces to skipping the whole run. -/
def kwAhead (s : List Char) : Bool :=
  nameKws.any (fun k => (ciPrefixKeep k (s.dropWhile (fun c => isSpaceA c))).isSome)

/-- The name pattern's lookahead, evaluated at the position after the
candidate group. -/
def lookaheadOk (s : List Char) : Bool :=
  kwAhead s ||
    (match s with
     | [] => true
     | c :: _ => c = '\n')

/-- Lazy expansion of the capture group `[A-Za-z\s]+?`: grow one character
at a time (each must be an ASCII letter or whitespace) and stop at the first
position where the lookahead succeeds.  `acc` is the group built so far. -/
def growGroup (acc : List Char) : List Char → Option (List Char)
  | [] => none
  | c :: r =>
    if isAlphaA c || isSpaceA c then
      if lookaheadOk r then some (acc ++ [c]) else growGroup (acc ++ [c]) r
    else none

/-- The second greedy `\s*`: try consuming `n` whitespace characters, from
the longest run down to zero, before the capture group. -/
def tryWs2 (s : List Char) : Nat → Option (List Char)
  | 0 => growGroup [] s
  | m + 1 =>
    match growGroup [] (s.drop (m + 1)) with
    | some g => some g
    | none => tryWs2 s m

/-- The optional label separator `:` or `।` (greedy: consume it first). -/
def tryColon (s : List Char) : Option (List Char) :=
  match s with
  | c :: r =>
    if c = ':' || c = '।' then
      match tryWs2 r (wsLen r) with
      | some g => some g
      | none => tryWs2 s (wsLen s)
    else tryWs2 s (wsLen s)
  | [] => none

/-- The first greedy `\s*`, after the label: try `n` whitespace characters,
longest run first. -/
def tryWs1 (s : List Char) : Nat → Option (List Char)
  | 0 => tryColon s
  | m + 1 =>
    match tryColon (s.drop (m + 1)) with
    | some g => some g
    | none => tryWs1 s m

/-- Attempt the whole name pattern at the current position (no word
boundary precedes the label in the source pattern). -/
def matchNameAt (s : List Char) : Option (List Char) :=
  match ciPrefixKeep "Name".data s with
  | some (_, r) => tryWs1 r (wsLen r)
  | none =>
    match ciPrefixKeep "नाम".data s with
    | some (_, r) => tryWs1 r (wsLen r)
    | none => none

/-- Leftmost search for the name pattern; returns the captured group. -/
def nameScan : List Char → Option (List Char)
  | [] => none
  | s@(_ :: rest) =>
    match matchNameAt s with
    | some g => some g
    | none => nameScan rest

/-! ## String helpers mirroring the Python methods used by the source -/

/-- `str.strip()`: drop whitespace from both ends. -/
def stripChars (l : List Char) : List Char :=
  ((l.dropWhile isSpaceA).reverse.dropWhile isSpaceA).reverse

/-- `str.replace(" ", "")`: remove every space character. -/
def removeSpaces : List Char → List Char
  | [] => []
  | c :: r => if c = ' ' then removeSpaces r else c :: removeSpaces r

/-- Python truthiness of an optional string: `None` and `""` are falsy. -/
def pyTruthy : Option String → Bool
  | none => false
  | some s => if s = "" then false else true

/-! ## `validate_aadhaar_number` (source lines 61–69) -/

/-- `validate_aadhaar_number`: reject the empty string, remove spaces, then
`re.match` the pattern "start, twelve digits, end".  Python's `$` (without
`MULTILINE`) also matches just before a single trailing newline. -/
def validate_aadhaar_number (s : String) : Bool :=
  if s = "" then false
  else
    match takeDigits 12 (removeSpaces s.data) with
    | some (_, r) => r = [] || r = ['\n']
    | none => false

/-! ## `extract_aadhaar_info` (source lines 71–117)

The result dictionary starts with the four keys `aadhaar_number`, `name`,
`dob`, `gender` all `None`; the pattern loop stores each match under its
pattern-table key.  The table's ID key is `"aadhaar"`, not
`"aadhaar_number"`, so a fifth dictionary entry is created for the ID match
while `aadhaar_number` is left untouched.  The structure below has one field
per possible dictionary key (`aadhaar = none` models the absent fifth key). -/

structure AadhaarInfo where
  aadhaar_number : Option String
  name : Option String
  dob : Option String
  gender : Option String
  aadhaar : Option String
deriving DecidableEq, Repr

/-- The extraction function: run the four pattern-and-transform entries,
then re-validate `aadhaar_number` exactly as the source does (the branch is
guarded by the Python truthiness of `aadhaar_number`). -/
def extract_aadhaar_info (text : String) : AadhaarInfo :=
  let t := text.data
  let info : AadhaarInfo :=
    { aadhaar_number := none
      name := (nameScan t).map (fun g => String.mk (stripChars g))
      dob := (dobScan false t).map String.mk
      gender := (genderScan false t).map (fun g => genderTransform (String.mk g))
      aadhaar := (aadhaarScan false t).map (fun m => String.mk (removeSpaces m)) }
  if pyTruthy info.aadhaar_number &&
      !validate_aadhaar_number (info.aadhaar_number.getD "") then
    { info with aadhaar_number := none }
  else
    info

/-! ## The orchestrator `extract_aadhaar_data` (source lines 173–236)

The request handler is modelled as a function of the upload's byte length,
its declared content type, whether decoding plus preprocessing succeeds,
whether the OCR engine is available, and the text the OCR engine would
return.  `decodeAttempted` and `ocrCalled` record which pipeline stages ran,
so ordering claims (`size check before decoding and OCR`) are statable.
Each failure kind names one distinct raise site of the handler:
`PayloadTooLargeError` and `UnsupportedMediaTypeError` are the two
`HTTPException`s, `PreprocessingError`/`OcrUnavailableError` the decode and
OCR stage failures, and `NoTextRecognizedError`/`NoFieldsExtractedError` the
two `ValueError`s with their distinct messages. -/

inductive FailureKind
  | PayloadTooLargeError
  | UnsupportedMediaTypeError
  | PreprocessingError
  | OcrUnavailableError
  | NoTextRecognizedError
  | NoFieldsExtractedError
deriving DecidableEq, Repr

structure OrchRun where
  result : Except FailureKind AadhaarInfo
  decodeAttempted : Bool
  ocrCalled : Bool
deriving Repr

/-- `any(extracted_data.values())`: Python truthiness over the dictionary's
values in insertion order (the stray `aadhaar` key included when present). -/
def anyValues (i : AadhaarInfo) : Bool :=
  pyTruthy i.aadhaar_number || pyTruthy i.name || pyTruthy i.dob ||
    pyTruthy i.gender || pyTruthy i.aadhaar

/-- The 5 MiB upload ceiling (`max_size = 5 * 1024 * 1024`). -/
def MAX_SIZE : Nat := 5 * 1024 * 1024

/-- The orchestrator: size check, then content-type check, then decode and
preprocess, then OCR, then the empty-text check, then extraction and the
success criterion `any(extracted_data.values())`. -/
def extract_aadhaar_data (size : Nat) (contentType : String)
    (decodeOk : Bool) (ocrAvailable : Bool) (ocrText : String) : OrchRun :=
  if MAX_SIZE < size then
    ⟨.error .PayloadTooLargeError, false, false⟩
  else if ¬(contentType = "image/jpeg" ∨ contentType = "image/png" ∨
      contentType = "image/jpg") then
    ⟨.error .UnsupportedMediaTypeError, false, false⟩
  else if !decodeOk then
    ⟨.error .PreprocessingError, true, false⟩
  else if !ocrAvailable then
    ⟨.error .OcrUnavailableError, true, true⟩
  else if stripChars ocrText.data = [] then
    ⟨.error .NoTextRecognizedError, true, true⟩
  else
    let d := extract_aadhaar_info ocrText
    if anyValues d then ⟨.ok d, true, true⟩
    else ⟨.error .NoFieldsExtractedError, true, true⟩

/-! ## Auxiliary predicates used to state the claims -/

/-- The gender vocabulary enumerated by the spec (and by the source's
pattern alternation). -/
def genderVocab : List String :=
  ["Male", "Female", "Transgender", "पुरुष", "महिला", "किन्नर"]

/-- The spec's wording of the DOB shape: a date string in `DD/MM/YYYY` *or*
`DD-MM-YYYY` form, i.e. both separators are the same character.  Stated from
the spec's words, for comparison with the shape the code guarantees. -/
def dobSpecForm (s : String) : Bool :=
  match s.data with
  | [a, b, c1, d, e, c2, f, g, h, i] =>
    isDigitA a && isDigitA b && isDigitA d && isDigitA e && isDigitA f &&
      isDigitA g && isDigitA h && isDigitA i &&
      ((c1 = '/' && c2 = '/') || (c1 = '-' && c2 = '-'))
  | _ => false

/-- The DOB shape the code's pattern actually guarantees: ten characters,
two digits, a separator, two digits, a separator, four digits, where each
separator is independently a slash or a hyphen. -/
def dobCodeFormL (l : List Char) : Bool :=
  match l with
  | [a, b, c1, d, e, c2, f, g, h, i] =>
    isDigitA a && isDigitA b && isDigitA d && isDigitA e && isDigitA f &&
      isDigitA g && isDigitA h && isDigitA i && isSep c1 && isSep c2
  | _ => false

/-- `dobCodeFormL` on strings. -/
def dobCodeForm (s : String) : Bool := dobCodeFormL s.data

end Aadhaar

section Sanity
open Aadhaar
example : aadhaarScan false "9876 5432 1098".data = some "9876 5432 1098".data := by decide
example : aadhaarScan false "1234 5678 9012".data = none := by decide
example : dobScan false "32/13-2090".data = some "32/13-2090".data := by decide
example : genderScan false "Gender: Female".data = some "Female".data := by decide
example : genderScan false "FEMALE".data = some "FEMALE".data := by decide
example : genderTransform "FEMALE" = "Transgender" := by decide
example : nameScan "Name: Asha Kumar\nDOB: x".data = some "Asha Kumar".data := by decide
example : (nameScan "Name: \nDOB: 01/01/1990".data).map (fun g => stripChars g) = some [] := by decide
example : nameScan "Name: John\tDoe".data = some "John\tDoe".data := by decide
example : validate_aadhaar_number "012345678901" = true := by decide
example : validate_aadhaar_number "2123 4567 8901" = true := by decide
example : validate_aadhaar_number "212345678901\n" = true := by decide
example : validate_aadhaar_number "21234567890" = false := by decide
example : extract_aadhaar_info "Name: Asha Kumar\nDOB: 01/01/1990\nGender: Female\n9876 5432 1098" =
    ⟨none, some "Asha Kumar", some "01/01/1990", some "Female", some "987654321098"⟩ := by decide
end Sanity

namespace Aadhaar

/-! ## Structural lemmas about the embedding -/

/-- The extraction record, field by field: the ID match lands in the
`aadhaar` entry, never in `aadhaar_number`, so the re-validation branch is
dead and the record is exactly the four searches plus the stray key. -/
theorem extract_fields (text : String) :
    extract_aadhaar_info text =
      { aadhaar_number := none
        name := (nameScan text.data).map (fun g => String.mk (stripChars g))
        dob := (dobScan false text.data).map String.mk
        gender := (genderScan false text.data).map (fun g => genderTransform (String.mk g))
        aadhaar := (aadhaarScan false text.data).map (fun m => String.mk (removeSpaces m)) } :=
  rfl

/-- `takeDigits` only succeeds by splitting off `n` digits. -/
theorem takeDigits_some_shape :
    ∀ {n : Nat} {l ds r : List Char}, takeDigits n l = some (ds, r) →
      l = ds ++ r ∧ ds.length = n ∧ ∀ c ∈ ds, isDigitA c = true := by
  intro n
  induction n with
  | zero =>
    intro l ds r h
    simp only [takeDigits, Option.some.injEq, Prod.mk.injEq] at h
    simp [← h.1, ← h.2]
  | succ n ih =>
    intro l ds r h
    match l with
    | [] => simp [takeDigits] at h
    | c :: cs =>
      simp only [takeDigits] at h
      by_cases hc : isDigitA c
      · rw [if_pos hc] at h
        rcases Option.map_eq_some'.mp h with ⟨⟨ds', r'⟩, hds', heq⟩
        obtain ⟨h1, h2, h3⟩ := ih hds'
        cases heq
        refine ⟨by simp [h1], by simp [h2], ?_⟩
        intro x hx
        rcases List.mem_cons.mp hx with hx | hx
        · exact hx ▸ hc
        · exact h3 x hx
      · rw [if_neg hc] at h
        exact absurd h (by simp)

/-- Conversely, `n` digits followed by anything are consumed. -/
theorem takeDigits_complete :
    ∀ {ds : List Char}, (∀ c ∈ ds, isDigitA c = true) →
      ∀ r, takeDigits ds.length (ds ++ r) = some (ds, r) := by
  intro ds
  induction ds with
  | nil => intro _ r; rfl
  | cons c cs ih =>
    intro h r
    have hc : isDigitA c = true := h c (List.mem_cons_self c cs)
    simp only [List.length_cons, List.cons_append, takeDigits, hc, if_pos, List.append_eq]
    rw [ih (fun x hx => h x (List.mem_cons_of_mem c hx)) r]
    rfl

/-- A successful `matchAadhaarAt` always starts with a digit 2–9. -/
theorem matchAadhaarAt_head {s m : List Char} (h : matchAadhaarAt s = some m) :
    ∃ c cs, m = c :: cs ∧ '2' ≤ c ∧ c ≤ '9' := by
  match s with
  | [] => simp [matchAadhaarAt] at h
  | c :: r =>
    simp only [matchAadhaarAt] at h
    by_cases hc : ('2' ≤ c && c ≤ '9') = true
    · rw [if_pos hc] at h
      rcases (by simpa using hc : '2' ≤ c ∧ c ≤ '9') with ⟨h2, h9⟩
      match htd : takeDigits 3 r with
      | some (ds, r2) =>
        rw [htd] at h
        rcases Option.map_eq_some'.mp h with ⟨m', _, heq⟩
        exact ⟨c, ds ++ m', heq.symm, h2, h9⟩
      | none => rw [htd] at h; exact absurd h (by simp)
    · rw [if_neg hc] at h
      exact absurd h (by simp)

/-- Every match the ID scanner returns comes from `matchAadhaarAt` at some
position with no word character immediately before it. -/
theorem aadhaarScan_exists :
    ∀ {t : List Char} {pw : Bool} {m : List Char}, aadhaarScan pw t = some m →
      ∃ s, matchAadhaarAt s = some m := by
  intro t
  induction t with
  | nil => intro pw m h; simp [aadhaarScan] at h
  | cons c rest ih =>
    intro pw m h
    simp only [aadhaarScan] at h
    match hm : (if pw then none else matchAadhaarAt (c :: rest)) with
    | some m' =>
      rw [hm] at h
      cases h
      cases pw
      · exact ⟨c :: rest, by simpa using hm⟩
      · simp at hm
    | none =>
      rw [hm] at h
      exact ih h

/-- A list of length four is a four-element literal. -/
theorem length_eq_four {α : Type} {l : List α} :
    l.length = 4 ↔ ∃ a b c d, l = [a, b, c, d] := by
  constructor
  · intro h
    match l, h with
    | [a, b, c, d], _ => exact ⟨a, b, c, d, rfl⟩
    | [], h => simp at h
    | [_], h => simp at h
    | [_, _], h => simp at h
    | [_, _, _], h => simp at h
    | _ :: _ :: _ :: _ :: _ :: _, h => simp at h
  · rintro ⟨a, b, c, d, rfl⟩
    rfl

/-- A successful `matchDobAt` returns exactly the ten-character shape
"two digits, separator, two digits, separator, four digits". -/
theorem matchDobAt_shape {s m : List Char} (h : matchDobAt s = some m) :
    dobCodeFormL m = true := by
  unfold matchDobAt at h
  repeat' split at h
  all_goals try exact Option.noConfusion h
  rename_i x1 d1 r1 c1 r2 hq1 hc1 x2 d2 r3 c2 r4 hq2 hc2 x3 d3 r5 hq3 he
  cases h
  obtain ⟨-, hl1, hd1⟩ := takeDigits_some_shape hq1
  obtain ⟨-, hl2, hd2⟩ := takeDigits_some_shape hq2
  obtain ⟨-, hl3, hd3⟩ := takeDigits_some_shape hq3
  obtain ⟨a, b, rfl⟩ := List.length_eq_two.mp hl1
  obtain ⟨d, e, rfl⟩ := List.length_eq_two.mp hl2
  obtain ⟨f, g, h', i, rfl⟩ := length_eq_four.mp hl3
  have ha := hd1 a (by simp)
  have hb := hd1 b (by simp)
  have hdd := hd2 d (by simp)
  have hee := hd2 e (by simp)
  have hf := hd3 f (by simp)
  have hg := hd3 g (by simp)
  have hh := hd3 h' (by simp)
  have hi := hd3 i (by simp)
  simp [dobCodeFormL, ha, hb, hdd, hee, hf, hg, hh, hi, hc1, hc2]

/-- Every match the DOB scanner returns comes from `matchDobAt`. -/
theorem dobScan_exists :
    ∀ {t : List Char} {pw : Bool} {m : List Char}, dobScan pw t = some m →
      ∃ s, matchDobAt s = some m := by
  intro t
  induction t with
  | nil => intro pw m h; simp [dobScan] at h
  | cons c rest ih =>
    intro pw m h
    simp only [dobScan] at h
    match hm : (if pw then none else matchDobAt (c :: rest)) with
    | some m' =>
      rw [hm] at h
      cases h
      cases pw
      · exact ⟨c :: rest, by simpa using hm⟩
      · simp at hm
    | none =>
      rw [hm] at h
      exact ih h

/-- Every character the lazy capture group accumulates is an ASCII letter
or whitespace (the class of the group's pattern). -/
theorem growGroup_class :
    ∀ {s acc g : List Char},
      (∀ c ∈ acc, isAlphaA c = true ∨ isSpaceA c = true) →
      growGroup acc s = some g →
      ∀ c ∈ g, isAlphaA c = true ∨ isSpaceA c = true := by
  intro s
  induction s with
  | nil => intro acc g _ h; exact Option.noConfusion h
  | cons c r ih =>
    intro acc g hacc h
    simp only [growGroup] at h
    by_cases hc : (isAlphaA c || isSpaceA c) = true
    · rw [if_pos hc] at h
      have hc' : isAlphaA c = true ∨ isSpaceA c = true := by simpa using hc
      have hacc' : ∀ x ∈ acc ++ [c], isAlphaA x = true ∨ isSpaceA x = true := by
        intro x hx
        rcases List.mem_append.mp hx with hx | hx
        · exact hacc x hx
        · obtain rfl := List.mem_singleton.mp hx
          exact hc'
      by_cases hl : lookaheadOk r = true
      · rw [if_pos hl] at h
        cases h
        exact hacc'
      · rw [if_neg hl] at h
        exact ih hacc' h
    · rw [if_neg hc] at h
      exact Option.noConfusion h

/-- `tryWs2` only returns groups produced by `growGroup`. -/
theorem tryWs2_class {s : List Char} :
    ∀ {n : Nat} {g : List Char}, tryWs2 s n = some g →
      ∀ c ∈ g, isAlphaA c = true ∨ isSpaceA c = true := by
  intro n
  induction n with
  | zero =>
    intro g h
    simp only [tryWs2] at h
    exact growGroup_class (by simp) h
  | succ m ih =>
    intro g h
    simp only [tryWs2] at h
    match hg : growGroup [] (s.drop (m + 1)) with
    | some g' =>
      rw [hg] at h
      cases h
      exact growGroup_class (by simp) hg
    | none =>
      rw [hg] at h
      exact ih h

/-- `tryColon` only returns groups produced by `tryWs2`. -/
theorem tryColon_class {s g : List Char} (h : tryColon s = some g) :
    ∀ c ∈ g, isAlphaA c = true ∨ isSpaceA c = true := by
  unfold tryColon at h
  repeat' split at h
  all_goals try exact Option.noConfusion h
  all_goals try exact tryWs2_class h
  rename_i c r g' heq
  cases h
  exact tryWs2_class heq

/-- `tryWs1` only returns groups produced by `tryColon`. -/
theorem tryWs1_class {s : List Char} :
    ∀ {n : Nat} {g : List Char}, tryWs1 s n = some g →
      ∀ c ∈ g, isAlphaA c = true ∨ isSpaceA c = true := by
  intro n
  induction n with
  | zero =>
    intro g h
    simp only [tryWs1] at h
    exact tryColon_class h
  | succ m ih =>
    intro g h
    simp only [tryWs1] at h
    match hg : tryColon (s.drop (m + 1)) with
    | some g' =>
      rw [hg] at h
      cases h
      exact tryColon_class hg
    | none =>
      rw [hg] at h
      exact ih h

/-- The captured name group consists of letters and whitespace. -/
theorem matchNameAt_class {s g : List Char} (h : matchNameAt s = some g) :
    ∀ c ∈ g, isAlphaA c = true ∨ isSpaceA c = true := by
  unfold matchNameAt at h
  repeat' split at h
  all_goals try exact Option.noConfusion h
  all_goals exact tryWs1_class h

/-- Every group the name scanner returns comes from `matchNameAt`. -/
theorem nameScan_class :
    ∀ {t g : List Char}, nameScan t = some g →
      ∀ c ∈ g, isAlphaA c = true ∨ isSpaceA c = true := by
  intro t
  induction t with
  | nil => intro g h; exact Option.noConfusion h
  | cons c rest ih =>
    intro g h
    simp only [nameScan] at h
    match hm : matchNameAt (c :: rest) with
    | some g' =>
      rw [hm] at h
      cases h
      exact matchNameAt_class hm
    | none =>
      rw [hm] at h
      exact ih h

/-- Stripping only removes characters. -/
theorem stripChars_mem {l : List Char} {c : Char} (h : c ∈ stripChars l) : c ∈ l := by
  rw [stripChars, List.mem_reverse] at h
  have h2 : c ∈ (l.dropWhile isSpaceA).reverse := (List.dropWhile_sublist _).mem h
  rw [List.mem_reverse] at h2
  exact (List.dropWhile_sublist _).mem h2

/-- The `name` field of the extraction record, explicitly. -/
theorem extract_name (text : String) :
    (extract_aadhaar_info text).name =
      (nameScan text.data).map (fun g => String.mk (stripChars g)) := by
  rw [extract_fields]

/-- The `dob` field of the extraction record, explicitly. -/
theorem extract_dob (text : String) :
    (extract_aadhaar_info text).dob = (dobScan false text.data).map String.mk := by
  rw [extract_fields]

/-- The `gender` field of the extraction record, explicitly. -/
theorem extract_gender (text : String) :
    (extract_aadhaar_info text).gender =
      (genderScan false text.data).map (fun g => genderTransform (String.mk g)) := by
  rw [extract_fields]

/-! ## The claims -/

/-- C1.  The spec's end-to-end example claims the record
`{id_number: "987654321098", name: "Asha Kumar", dob: "01/01/1990",
gender: "Female"}`.  The code instead leaves `aadhaar_number` (= the spec's
`id_number`) at `None` and stores the matched digits under the stray
dictionary key `aadhaar`: the extraction evaluates to the record below, whose
`aadhaar_number` field is `none`, diverging from the claimed `id_number`. -/
theorem C1_end_to_end_id_number_lost :
    extract_aadhaar_info
        "Name: Asha Kumar\nDOB: 01/01/1990\nGender: Female\n9876 5432 1098" =
      { aadhaar_number := none
        name := some "Asha Kumar"
        dob := some "01/01/1990"
        gender := some "Female"
        aadhaar := some "987654321098" } := by
  decide

/-- C2.  For every input text the returned record's `aadhaar_number` field
is `none`: the pattern table's key is `"aadhaar"`, so the match is stored
under the separate `aadhaar` dictionary entry (space-stripped), and the
re-validation branch guarded by `aadhaar_info["aadhaar_number"]` is never
taken. -/
theorem C2_aadhaar_number_always_none (text : String) :
    (extract_aadhaar_info text).aadhaar_number = none ∧
    (extract_aadhaar_info text).aadhaar =
      (aadhaarScan false text.data).map (fun m => String.mk (removeSpaces m)) := by
  rw [extract_fields]
  exact ⟨rfl, rfl⟩

/-- C3.  The claim says a call succeeds only if one of the four fields
(`id_number`/`aadhaar_number`, `name`, `dob`, `gender`) is present, and that
an all-absent record fails with `NoFieldsExtractedError`.  The code violates
this: on OCR text `"9876 5432 1098"` all four fields are absent, yet the
stray `aadhaar` dictionary entry makes `any(extracted_data.values())` true
and the call is reported successful.  The second conjunct shows the
whitespace-only OCR output branch (`NoTextRecognizedError`) for contrast. -/
theorem C3_success_with_all_four_fields_absent :
    extract_aadhaar_data 100 "image/jpeg" true true "9876 5432 1098" =
      { result := Except.ok
          { aadhaar_number := none, name := none, dob := none, gender := none,
            aadhaar := some "987654321098" }
        decodeAttempted := true
        ocrCalled := true } ∧
    extract_aadhaar_data 100 "image/jpeg" true true " \n " =
      { result := Except.error FailureKind.NoTextRecognizedError
        decodeAttempted := true
        ocrCalled := true } :=
  ⟨rfl, rfl⟩

/-- C4 (counterexample).  The claim says the validator rejects every string
beginning with 0 or 1; in fact `validate_aadhaar_number` checks only
"twelve digits after space removal" and accepts `"012345678901"`. -/
theorem C4_counterexample_leading_zero_accepted :
    validate_aadhaar_number "012345678901" = true := by
  decide

/-- C4 (amended).  The validator accepts exactly the strings that, after
removing spaces, are twelve decimal digits optionally followed by one
trailing newline (Python's `$` matches before a final newline) — with no
constraint on the first digit; everything else, including the empty string,
is rejected. -/
theorem C4_amended_validator_characterization (s : String) :
    validate_aadhaar_number s = true ↔
      ∃ ds : List Char, ds.length = 12 ∧ (∀ c ∈ ds, isDigitA c = true) ∧
        (removeSpaces s.data = ds ∨ removeSpaces s.data = ds ++ ['\n']) := by
  unfold validate_aadhaar_number
  by_cases hs : s = ""
  · subst hs
    rw [if_pos rfl]
    simp only [Bool.false_eq_true, false_iff]
    rintro ⟨ds, hlen, -, hor⟩
    have hdata : removeSpaces (String.data "") = [] := rfl
    rcases hor with hor | hor <;> rw [hdata] at hor <;>
      apply_fun List.length at hor <;> simp [hlen] at hor
  · rw [if_neg hs]
    match htd : takeDigits 12 (removeSpaces s.data) with
    | some (ds, r) =>
      obtain ⟨happ, hlen, hdig⟩ := takeDigits_some_shape htd
      constructor
      · intro h
        have hr : r = [] ∨ r = ['\n'] := by simpa using h
        rcases hr with rfl | rfl
        · exact ⟨ds, hlen, hdig, Or.inl (by simpa using happ)⟩
        · exact ⟨ds, hlen, hdig, Or.inr (by simpa using happ)⟩
      · rintro ⟨ds', hlen', hdig', hor⟩
        rcases hor with hor | hor
        · have heq : ds ++ r = ds' ++ [] := by rw [← happ, hor, List.append_nil]
          obtain ⟨-, rfl⟩ := List.append_inj heq (hlen.trans hlen'.symm)
          rfl
        · have heq : ds ++ r = ds' ++ ['\n'] := by rw [← happ, hor]
          obtain ⟨-, rfl⟩ := List.append_inj heq (hlen.trans hlen'.symm)
          rfl
    | none =>
      simp only [Bool.false_eq_true, false_iff]
      rintro ⟨ds, hlen, hdig, hor⟩
      rcases hor with hor | hor
      · have := takeDigits_complete hdig []
        rw [List.append_nil, hlen] at this
        rw [hor] at htd
        rw [htd] at this
        exact Option.noConfusion this
      · have := takeDigits_complete hdig ['\n']
        rw [hlen] at this
        rw [hor] at htd
        rw [htd] at this
        exact Option.noConfusion this

/-- C5.  The ID extractor's pattern can never produce a match whose leading
digit is 0 or 1: every successful scan starts with a character in 2–9, and
(word boundaries forbid starting mid-run) on `"1234 5678 9012"` the scan
finds nothing at all, so the whole record is empty there — the validation
step's 12-digit check is redundant-but-safe. -/
theorem C5_extractor_never_matches_low_leading_digit :
    (aadhaarScan false "1234 5678 9012".data = none ∧
     aadhaarScan false "0234 5678 9012".data = none ∧
     extract_aadhaar_info "1234 5678 9012" =
       { aadhaar_number := none, name := none, dob := none, gender := none,
         aadhaar := none }) ∧
    ∀ (pw : Bool) (t m : List Char), aadhaarScan pw t = some m →
      ∃ c cs, m = c :: cs ∧ '2' ≤ c ∧ c ≤ '9' := by
  refine ⟨by decide, ?_⟩
  intro pw t m h
  obtain ⟨s, hs⟩ := aadhaarScan_exists h
  exact matchAadhaarAt_head hs

/-- C5 witness: the universally quantified part applied to the concrete
text `"9876 5432 1098"`, whose scan succeeds. -/
theorem C5_witness :
    ∃ c cs, "9876 5432 1098".data = c :: cs ∧ '2' ≤ c ∧ c ≤ '9' :=
  C5_extractor_never_matches_low_leading_digit.2 false
    "9876 5432 1098".data "9876 5432 1098".data (by decide)

/-- C6.  The gender transform maps every token of the enumerated vocabulary
to one of the three canonical values, and it is idempotent (on every string:
its image is contained in its fixed points). -/
theorem C6_gender_normalization_total_and_idempotent :
    (∀ x ∈ genderVocab,
       genderTransform x = "Male" ∨ genderTransform x = "Female" ∨
         genderTransform x = "Transgender") ∧
    ∀ x : String, genderTransform (genderTransform x) = genderTransform x := by
  constructor
  · intro x hx
    simp only [genderVocab, List.mem_cons, List.not_mem_nil, or_false] at hx
    rcases hx with rfl | rfl | rfl | rfl | rfl | rfl <;> decide
  · intro x
    have h : genderTransform x = "Male" ∨ genderTransform x = "Female" ∨
        genderTransform x = "Transgender" := by
      unfold genderTransform
      split_ifs <;> simp
    rcases h with h | h | h <;> rw [h] <;> decide

/-- C6 witness: totality and idempotence at the vocabulary token `महिला`. -/
theorem C6_witness :
    (genderTransform "महिला" = "Male" ∨ genderTransform "महिला" = "Female" ∨
      genderTransform "महिला" = "Transgender") ∧
    genderTransform (genderTransform "महिला") = genderTransform "महिला" :=
  ⟨C6_gender_normalization_total_and_idempotent.1 "महिला" (by decide),
   C6_gender_normalization_total_and_idempotent.2 "महिला"⟩

/-- C7.  Gender matching is case-insensitive but the transform compares
case-sensitively: any matched token that is not character-for-character one
of `Male`, `पुरुष`, `Female`, `महिला` normalizes to `Transgender` — e.g. the
text `"FEMALE"` (matched case-insensitively) yields gender `Transgender`. -/
theorem C7_case_sensitive_normalization_defaults_to_transgender :
    (extract_aadhaar_info "FEMALE").gender = some "Transgender" ∧
    ∀ (text : String) (tok : List Char), genderScan false text.data = some tok →
      String.mk tok ∉ (["Male", "पुरुष", "Female", "महिला"] : List String) →
      (extract_aadhaar_info text).gender = some "Transgender" := by
  refine ⟨by decide, ?_⟩
  intro text tok hscan hnot
  rw [extract_gender, hscan]
  simp only [List.mem_cons, List.mem_singleton] at hnot
  push_neg at hnot
  obtain ⟨h1, h2, h3, h4⟩ := hnot
  simp [genderTransform, h1, h2, h3, h4]

/-- C7 witness: the universally quantified part applied to the text
`"FEMALE"`. -/
theorem C7_witness : (extract_aadhaar_info "FEMALE").gender = some "Transgender" :=
  C7_case_sensitive_normalization_defaults_to_transgender.2 "FEMALE"
    "FEMALE".data (by decide) (by decide)

/-- C8.  Any upload larger than 5 MiB is rejected with
`PayloadTooLargeError` before the decode/preprocess stage and before the OCR
stage run, for every content type and every would-be OCR outcome. -/
theorem C8_oversize_rejected_before_decode_and_ocr (size : Nat)
    (contentType : String) (decodeOk ocrAvailable : Bool) (ocrText : String)
    (h : MAX_SIZE < size) :
    extract_aadhaar_data size contentType decodeOk ocrAvailable ocrText =
      { result := Except.error FailureKind.PayloadTooLargeError
        decodeAttempted := false
        ocrCalled := false } := by
  unfold extract_aadhaar_data
  rw [if_pos h]

/-- C8 witness: one byte over the ceiling, with a type that would otherwise
be rejected and an OCR text that would otherwise succeed. -/
theorem C8_witness :
    extract_aadhaar_data (MAX_SIZE + 1) "image/gif" true true "Name: Asha" =
      { result := Except.error FailureKind.PayloadTooLargeError
        decodeAttempted := false
        ocrCalled := false } :=
  C8_oversize_rejected_before_decode_and_ocr (MAX_SIZE + 1) "image/gif" true true
    "Name: Asha" (Nat.lt_succ_self _)

/-- C9 (counterexample).  The claim says a present `dob` is in `DD/MM/YYYY`
or `DD-MM-YYYY` form (a single separator used twice); the pattern's two
separators are independent, so `"32/13-2090"` is extracted as a `dob` while
being in neither form.  The third conjunct records the claim's correct part:
no calendar validation (`32/13/2090` passes). -/
theorem C9_counterexample_mixed_separators :
    (extract_aadhaar_info "32/13-2090").dob = some "32/13-2090" ∧
    dobSpecForm "32/13-2090" = false ∧
    (extract_aadhaar_info "32/13/2090").dob = some "32/13/2090" := by
  decide

/-- C9 (amended).  Whenever `dob` is present it is exactly ten characters —
two digits, a separator, two digits, a separator, four digits — where each
separator is independently a slash or a hyphen, preserved as matched, with
no calendar validation of day or month ranges. -/
theorem C9_amended_dob_shape (text d : String)
    (h : (extract_aadhaar_info text).dob = some d) :
    dobCodeForm d = true := by
  rw [extract_dob] at h
  rcases Option.map_eq_some'.mp h with ⟨m, hm, rfl⟩
  obtain ⟨s, hs⟩ := dobScan_exists hm
  exact matchDobAt_shape hs

/-- C9 witness: the amended shape at the concrete extraction
`"32/13/2090"`. -/
theorem C9_witness : dobCodeForm "32/13/2090" = true :=
  C9_amended_dob_shape "32/13/2090" "32/13/2090" (by decide)

/-- C10 (counterexample).  The claim says a present `name` is a non-empty
string of alphabetic characters and spaces.  Both parts fail: on
`"Name: \nDOB: 01/01/1990"` the lazy group captures only the newline and
strips to the empty string, and on `"Name: John\tDoe"` the captured name
contains a tab (the pattern class is letters plus *all* whitespace). -/
theorem C10_counterexample_empty_and_tab_names :
    (extract_aadhaar_info "Name: \nDOB: 01/01/1990").name = some "" ∧
    (extract_aadhaar_info "Name: John\tDoe").name = some "John\tDoe" := by
  decide

/-- C10 (amended).  Whenever `name` is present, every character of it is an
ASCII letter or a whitespace character (and it may be empty after
stripping). -/
theorem C10_amended_name_characters (text n : String)
    (h : (extract_aadhaar_info text).name = some n) :
    ∀ c ∈ n.data, isAlphaA c = true ∨ isSpaceA c = true := by
  rw [extract_name] at h
  rcases Option.map_eq_some'.mp h with ⟨g, hg, rfl⟩
  intro c hc
  exact nameScan_class hg c (stripChars_mem hc)

/-- C10 witness: the amended property at the concrete extraction of
`"Asha Kumar"`, evaluated at its first character. -/
theorem C10_witness : isAlphaA 'A' = true ∨ isSpaceA 'A' = true :=
  C10_amended_name_characters "Name: Asha Kumar\nDOB: x" "Asha Kumar"
    (by decide) 'A' (by decide)

end Aadhaar
